import Mathlib

/-!
Verification of the request-dispatch core of the `endpoints` package
(`endpoints/call.py` and `endpoints/decorators/call.py`) via a shallow
embedding in Lean.  Python strings become `String`, Python lists become
`List`, Python dicts become association lists, and raised exceptions
become `Except PyExc` values.  Definitions follow the source line by
line; the few collaborators that are not part of the analysed sources
(the `AcceptHeader` parser from `endpoints/utils.py` and the
`ControllerDecorator` base class) are modelled from the specification
and marked as such in their doc comments.
-/

namespace Endpoints

/-- Python exceptions that the analysed code can raise or catch.
`callError` models `endpoints.call.CallError` (an HTTP status code plus
message); the remaining constructors model the builtin exception classes
appearing in the source (`ImportError`, `AttributeError`, `ValueError`,
`NameError`, `IndexError`) and the decorators' `VersionError`. -/
inductive PyExc where
  | importError (name : String)
  | attributeError (name : String)
  | valueError (msg : String)
  | nameError (name : String)
  | indexError
  | callError (code : Nat) (msg : String)
  | versionError (version : String)
  | other (msg : String)
  deriving Repr, DecidableEq

/-- Message attached to an exception, modelling Python's `e.message`. -/
def excMessage : PyExc → String
  | .importError n => n
  | .attributeError n => n
  | .valueError m => m
  | .nameError n => n
  | .indexError => "index out of range"
  | .callError _ m => m
  | .versionError v => v
  | .other m => m

/-- List-level test that `p` begins the list `l` (character lists). -/
def listStarts : List Char → List Char → Bool
  | [], _ => true
  | _ :: _, [] => false
  | p :: ps, c :: cs => p = c && listStarts ps cs

/-- Python `s.startswith(pre)`. -/
def pyStartsWith (s pre : String) : Bool := listStarts pre.data s.data

/-- Python `fnmatch(f, "*.py")`, i.e. the file name ends in `.py`. -/
def pyEndsWith (s suf : String) : Bool := listStarts suf.data.reverse s.data.reverse

/-- Python `s[0]` on a (non-empty) string; the padding value returned on
an empty string is irrelevant to every use below. -/
def pyFront (s : String) : Char := s.data.headD ' '

/-- Python `s.capitalize()`: first character uppercased, rest lowercased. -/
def pyCapitalize (s : String) : String :=
  match s.data with
  | [] => ""
  | c :: rest => String.mk (c.toUpper :: rest.map Char.toLower)

/-- Python `s.upper()`. -/
def pyUpper (s : String) : String := String.mk (s.data.map Char.toUpper)

/-- Python `'.'.join(parts)`. -/
def dotJoin : List String → String
  | [] => ""
  | [x] => x
  | x :: y :: xs => x ++ "." ++ dotJoin (y :: xs)

/-- Python `os.path.splitext(f)[0]` for a file name ending in `.py`. -/
def fileStem (f : String) : String := String.mk (f.data.take (f.data.length - 3))

/-! ### The file-system walk of `get_controllers` (call.py lines 14-42) -/

/-- A directory on disk: its name, the plain files it holds, and its
subdirectories, as consumed by `os.walk`. -/
inductive Dir : Type where
  | node : String → List String → List Dir → Dir

/-- Name component of a directory. -/
def Dir.dname : Dir → String
  | .node n _ _ => n

/-- The directory filter of call.py line 27, transcribed verbatim:
`d[0] != '.' or d[0] != '_'`. -/
def keepDir (d : String) : Bool := (pyFront d != '.') || (pyFront d != '_')

/-- The intended directory filter as the spec states it: prune hidden
(dot-prefixed) and private (underscore-prefixed) directories. -/
def keepDirSpec (d : String) : Bool := (pyFront d != '.') && (pyFront d != '_')

/-- The per-file body of the walk loop (call.py lines 31-38): `*.py`
files produce a dotted module identifier, `__init__*` files produce the
package identifier, and other underscore-prefixed files are skipped. -/
def moduleOfFile (comps : List String) (f : String) : Option String :=
  if pyEndsWith f ".py" then
    if pyStartsWith f "__init__" then some (dotJoin comps)
    else if pyStartsWith f "_" then none
    else some (dotJoin (comps ++ [fileStem f]))
  else none

mutual
/-- Modules contributed by one directory of the `os.walk` traversal,
`comps` being the dotted-name components accumulated so far. -/
def dirModules (comps : List String) : Dir → List String
  | .node _ files subdirs =>
      files.filterMap (moduleOfFile comps) ++ dirsModules comps subdirs

/-- Modules contributed by a list of subdirectories, applying the
(line 27) directory filter before descending, as the top-down walk does. -/
def dirsModules (comps : List String) : List Dir → List String
  | [] => []
  | d :: ds =>
      (if keepDir d.dname then dirModules (comps ++ [d.dname]) d else [])
        ++ dirsModules comps ds
end

/-- Process-wide `_module_cache`, keyed by controller root. -/
abbrev ModuleCache := List (String × List String)

/-- Model of `get_controllers(controller_prefix)` (call.py lines 14-42).
`fs` is the directory of the imported root package (the model takes the
root import as given).  Returns the module set, the updated cache, and
whether the file-system walk actually ran. -/
def get_controllers (fs : Dir) (croot : String) (cache : ModuleCache) :
    Except PyExc (List String × ModuleCache × Bool) :=
  if croot = "" then .error (.valueError "controller prefix is empty")
  else
    match cache.lookup croot with
    | some m => .ok (m, cache, false)
    | none =>
        let modules := dirModules [croot] fs
        .ok (modules, (croot, modules) :: cache, true)

/-! ### Controller resolution (call.py lines 124-220) -/

/-- A loaded Python module as the resolver sees it: its attribute names,
each marked with whether the attribute is a handler (`Controller`
sub)class declared for dispatch — as opposed to, say, an imported helper
class.  The source only ever consults the name (`hasattr`/`getattr`). -/
structure PyModule where
  attrs : List (String × Bool)
  deriving Repr, DecidableEq

/-- Python `hasattr(m, name)`. -/
def PyModule.hasattr (m : PyModule) (name : String) : Bool :=
  m.attrs.any (fun a => a.1 = name)

/-- Python `hasattr(m, name) and the attribute is a declared handler
class` — the check the spec describes for class-segment consumption. -/
def PyModule.hasHandlerClass (m : PyModule) (name : String) : Bool :=
  m.attrs.any (fun a => a.1 = name && a.2)

/-- The dictionary `get_controller_info_*` builds (module/class objects
are represented by their names; `args`/`kwargs` as in the source). -/
structure ControllerInfo where
  module_name : String
  class_name : String
  method : String
  args : List String
  kwargs : List (String × String)
  deriving Repr, DecidableEq

/-- The `while path_args:` loop of `get_controller_info_advanced`
(call.py lines 193-201): greedily extend the dotted name by the next
path segment while the extension is in the controller set, returning the
final module name and the unconsumed segments. -/
def moduleWalk (cset : List String) : String → List String → String × List String
  | cur, [] => (cur, [])
  | cur, a :: rest =>
      if (cur ++ "." ++ a) ∈ cset then moduleWalk cset (cur ++ "." ++ a) rest
      else (cur, a :: rest)

/-- The class-segment step of `get_controller_info_advanced` (call.py
lines 206-211): if a segment remains and the module has an attribute
named by its capitalization, consume it as the class name; otherwise
keep `Default` and leave the segment unconsumed. -/
def classPick (m : PyModule) : List String → String × List String
  | [] => ("Default", [])
  | a :: rest =>
      let cn := pyCapitalize a
      if m.hasattr cn then (cn, rest) else ("Default", a :: rest)

/-- Model of `Call.get_controller_info_advanced` (call.py lines
170-217), the resolver `Call.get_controller_info` delegates to.
`modules` models `importlib.import_module` (`none` = `ImportError`),
`cset` the set returned by `get_controllers`, `croot` the normalized
controller root, `path_args` the request path segments and
`query_kwargs` the query parameters. -/
def get_controller_info_advanced (modules : String → Option PyModule)
    (cset : List String) (croot method : String)
    (path_args : List String) (query_kwargs : List (String × String)) :
    Except PyExc ControllerInfo :=
  let w := moduleWalk cset croot path_args
  match modules w.1 with
  | none => .error (.importError w.1)
  | some m =>
      let c := classPick m w.2
      if m.hasattr c.1 then
        .ok { module_name := w.1, class_name := c.1, method := pyUpper method,
              args := c.2, kwargs := query_kwargs }
      else .error (.attributeError c.1)

/-- Final part of `get_controller_info_simple` (call.py lines 163-168):
prepend the controller root, import the module, look the class up. -/
def simpleFinish (modules : String → Option PyModule)
    (croot module_name class_name method : String)
    (args : List String) (kwargs : List (String × String)) :
    Except PyExc ControllerInfo :=
  let full := if croot = "" then module_name else croot ++ "." ++ module_name
  match modules full with
  | none => .error (.importError full)
  | some m =>
      if m.hasattr class_name then
        .ok { module_name := full, class_name := class_name,
              method := pyUpper method, args := args, kwargs := kwargs }
      else .error (.attributeError class_name)

/-- Model of `Call.get_controller_info_simple` (call.py lines 124-168):
first segment is the module (rejected with `ValueError` when it starts
with an underscore), second the class (same rejection), rest the args. -/
def get_controller_info_simple (modules : String → Option PyModule)
    (croot method : String) (path_args : List String)
    (query_kwargs : List (String × String)) : Except PyExc ControllerInfo :=
  match path_args with
  | [] => simpleFinish modules croot "default" "Default" method [] query_kwargs
  | m0 :: rest =>
      if pyStartsWith m0 "_" then .error (.valueError (m0 ++ " is an invalid"))
      else
        match rest with
        | [] => simpleFinish modules croot m0 "Default" method [] query_kwargs
        | c0 :: rest2 =>
            if pyStartsWith c0 "_" then .error (.valueError (c0 ++ " is invalid"))
            else simpleFinish modules croot m0 (pyCapitalize c0) method rest2 query_kwargs

/-! ### Callback lookup and dispatch (call.py lines 222-279) -/

/-- The exception classes folded into a 404 by `get_callback_info`
(call.py line 232): `except (ImportError, AttributeError)`. -/
def isResolveFailure : PyExc → Bool
  | .importError _ => true
  | .attributeError _ => true
  | _ => false

/-- Model of `Call.get_callback_info` (call.py lines 222-247).
`controller_info` is the outcome of `get_controller_info`; `instAttrs`
gives the attribute names of the controller instance built from a
(module name, class name) pair.  Returns the bound-method name together
with the call arguments. -/
def get_callback_info (controller_info : Except PyExc ControllerInfo)
    (instAttrs : String → String → List String)
    (req_path req_method : String) :
    Except PyExc (String × List String × List (String × String)) :=
  match controller_info with
  | .error e =>
      if isResolveFailure e then
        .error (.callError 404 (req_path ++ " not found because of error: " ++ excMessage e))
      else .error e
  | .ok d =>
      if d.method ∈ instAttrs d.module_name d.class_name then
        .ok (d.method, d.args, d.kwargs)
      else .error (.callError 405 (req_method ++ " " ++ req_path ++ " not supported"))

/-- Body slot of a `Response`: unset, a returned value, or the caught
exception object the error paths store. -/
inductive ResponseBody where
  | empty
  | value (v : String)
  | errorBody (e : PyExc)
  deriving Repr, DecidableEq

/-- The `Response` sink `Call.handle` populates. -/
structure Response where
  code : Nat := 200
  headers : List (String × String) := []
  body : ResponseBody := .empty
  deriving Repr, DecidableEq

/-- The two `except` clauses of `Call.handle` (call.py lines 269-277):
a `CallError` sets its own status code, anything else sets 500; either
way the exception becomes the body. -/
def response_for_exc (resp : Response) : PyExc → Response
  | .callError c m => { resp with code := c, body := .errorBody (.callError c m) }
  | e => { resp with code := 500, body := .errorBody e }

/-- Model of `Call.handle` (call.py lines 257-279).  `callback_info` is
the outcome of `get_callback_info`; `callback` models invoking the
resolved bound method (returning a body or raising).  All exceptions are
values, so `handle` is total: every request yields exactly one
`Response`. -/
def handle (content_type : String)
    (callback_info : Except PyExc (String × List String × List (String × String)))
    (callback : List String → List (String × String) → Except PyExc String)
    (resp0 : Response) : Response :=
  match callback_info with
  | .error e => response_for_exc resp0 e
  | .ok (_, args, kwargs) =>
      let resp1 : Response :=
        { resp0 with headers := ("Content-Type", content_type) :: resp0.headers }
      match callback args kwargs with
      | .ok body => { resp1 with body := .value body }
      | .error e => response_for_exc resp1 e

/-- The exception (if any) observed during `handle`: either the one
raised while gathering callback info, or the one the callback raises. -/
def raisedExc
    (callback_info : Except PyExc (String × List String × List (String × String)))
    (callback : List String → List (String × String) → Except PyExc String) :
    Option PyExc :=
  match callback_info with
  | .error e => some e
  | .ok (_, args, kwargs) =>
      match callback args kwargs with
      | .ok _ => none
      | .error e => some e

/-! ### Version negotiation (call.py lines 282-319) -/

/-- One parsed media-type entry `(type, subtype, params)` as produced by
`AcceptHeader`; `get_version` reads `mt[2]`, the parameter dict. -/
structure MediaTypeEntry where
  mtype : String
  msubtype : String
  params : List (String × String)
  deriving Repr, DecidableEq

/-- The `for mt in a.filter(...)` loop of `get_version` (call.py lines
310-312): the first truthy `version` parameter, if any.  A falsy value
(missing key or empty string) lets the loop continue; if no entry has a
truthy version the loop leaves `v` falsy, collapsed here to `none`. -/
def firstVersion : List MediaTypeEntry → Option String
  | [] => none
  | mt :: rest =>
      match mt.params.lookup "version" with
      | some s => if s = "" then firstVersion rest else some s
      | none => firstVersion rest

/-- Python truthiness of the optional `default_version` string. -/
def truthyOpt : Option String → Bool
  | some s => s != ""
  | none => false

/-- Model of `VersionCall.get_version` (call.py lines 301-319).
Modelled from the spec: `AcceptHeader` lives in `endpoints/utils.py`,
which is not among the analysed sources, so `filtered` stands for
`AcceptHeader(accept_header).filter(content_type)` — the parsed entries
compatible with the declared content type, in client-preference order
(spec section 4.1). -/
def get_version (content_type accept_header : String)
    (filtered : List MediaTypeEntry) (default_version : Option String) :
    Except PyExc String :=
  if content_type = "" then
    .error (.valueError "You are versioning a call with no content_type")
  else
    match (if accept_header = "" then none else firstVersion filtered) with
    | some v => .ok v
    | none =>
        match default_version with
        | some dv =>
            if dv = "" then
              .error (.callError 406 ("Expected accept header with " ++ content_type ++ ";version=N media type"))
            else .ok dv
        | none =>
            .error (.callError 406 ("Expected accept header with " ++ content_type ++ ";version=N media type"))

/-! ### Route-override decorators (decorators/call.py) -/

/-- Model of `route.handle_failure` (decorators/call.py lines 49-70):
raise `CallError(405, ...)` when every route alternative failed. -/
def route_handle_failure {α : Type} (req_path : String) : Except PyExc α :=
  .error (.callError 405 ("Could not find a method to satisfy " ++ req_path))

/-- Model of `param_route.handle_failure` (decorators/call.py lines
145-149): raise `CallError(400, ...)` to match `@param` failures. -/
def param_route_handle_failure {α : Type} (req_path : String) : Except PyExc α :=
  .error (.callError 400 ("Could not find a method to satisfy " ++ req_path))

/-- Modelled from the spec: the `ControllerDecorator` base class
(`endpoints/decorators/base.py`, not among the analysed sources)
evaluates the predicates of the method alternatives in declaration order
and selects the first that returns true; when none matches it invokes
the configured `handle_failure` action (spec section 4.5). -/
def selectRoute {ρ α : Type} (alts : List ((ρ → Bool) × α))
    (failure : String → Except PyExc α) (req : ρ) (req_path : String) :
    Except PyExc α :=
  match alts.find? (fun pa => pa.1 req) with
  | some pa => .ok pa.2
  | none => failure req_path

/-! ### The broken `version` decorator (decorators/call.py lines 152-212) -/

/-- Abstract Python runtime operations, over an abstract value type `α`:
name lookup in the active scope, attribute access, calls, membership and
equality tests, subscripting, and iteration.  `version.target` is
embedded against these so that its failure is provable for every
possible runtime behaviour of the operations it never reaches. -/
structure PyOps (α : Type) where
  lookup : String → Option α
  getattr : α → String → Except PyExc α
  call : α → List α → Except PyExc α
  containsTest : α → α → Except PyExc Bool
  eqTest : α → α → Except PyExc Bool
  subscript : α → String → Except PyExc α
  getitem : α → Nat → Except PyExc α
  iter : α → Except PyExc (List α)

/-- Evaluating a bare name: the value bound in scope, or `NameError`. -/
def loadName {α : Type} (ops : PyOps α) (n : String) : Except PyExc α :=
  match ops.lookup n with
  | some v => .ok v
  | none => .error (.nameError n)

/-- The names in scope when `version.target` runs: its two parameters
plus the module-level globals of decorators/call.py (imports and
top-level definitions).  Neither `req`, `versions` nor `slf` is among
them. -/
def version_target_scope : List String :=
  ["self", "request",
   "logging", "inspect", "re",
   "CallError", "RouteError", "VersionError", "Url", "ControllerDecorator",
   "logger", "route", "path_route", "param_route", "version",
   "unicode_literals", "division", "print_function", "absolute_import"]

/-- The `for i, p in enumerate(pas)` loop shared by `path_route.target`
and the dead tail of `version.target` (decorators/call.py lines
185-195): compare each expected sub-path against `method_args[i]`,
converting an `IndexError` into a failed match. -/
def target_loop {α : Type} (ops : PyOps α) (method_args : α) :
    List α → Nat → Except PyExc Bool
  | [], _ => .ok true
  | p :: rest, i =>
      match ops.getitem method_args i with
      | .error .indexError => .ok false
      | .error e => .error e
      | .ok ma =>
          match ops.eqTest ma p with
          | .error e => .error e
          | .ok b => if b then target_loop ops method_args rest (i + 1) else .ok false

/-- The tail of `version.target` after the version check (decorators/
call.py lines 182-195): `pas = Url.normalize_paths(self.paths)` followed
by the comparison loop against `request.controller_info["method_args"]`. -/
def version_target_tail {α : Type} (ops : PyOps α) : Except PyExc Bool := do
  let url ← loadName ops "Url"
  let np ← ops.getattr url "normalize_paths"
  let slf1 ← loadName ops "self"
  let pathsv ← ops.getattr slf1 "paths"
  let pas ← ops.call np [pathsv]
  let pasList ← ops.iter pas
  let reqv ← loadName ops "request"
  let cinfo ← ops.getattr reqv "controller_info"
  let method_args ← ops.subscript cinfo "method_args"
  target_loop ops method_args pasList 0

/-- Model of `version.target` (decorators/call.py lines 175-195),
transcribed statement by statement.  Its first statement evaluates the
bare name `req` (the parameter is called `request`), so execution can
only proceed past it if `req` is bound in scope. -/
def version_target {α : Type} (ops : PyOps α) : Except PyExc Bool := do
  let req ← loadName ops "req"
  let vmeth ← ops.getattr req "version"
  let slf0 ← loadName ops "self"
  let ct ← ops.getattr slf0 "content_type"
  let req_version ← ops.call vmeth [ct]
  let versions ← loadName ops "versions"
  let mem ← ops.containsTest req_version versions
  if mem then version_target_tail ops
  else do
    let ve ← loadName ops "VersionError"
    let slfv ← loadName ops "slf"
    let _errObj ← ops.call ve [slfv, req_version, versions]
    .error (.versionError "version for request is not in the declared versions")

/-- The three member definitions of `class version` in source order:
`decorate` at line 171, `target` at line 175, and a second `decorate` at
line 202. -/
inductive VersionMember where
  | decorateFirst
  | targetMember
  | decorateSecond
  deriving Repr, DecidableEq

/-- The class body of `version` as the sequence of name bindings it
executes, in source order. -/
def version_class_body : List (String × VersionMember) :=
  [("decorate", .decorateFirst), ("target", .targetMember), ("decorate", .decorateSecond)]

/-- Python class creation: the class attribute for a name is the value
of the last assignment to that name in the class body. -/
def classAttr (body : List (String × VersionMember)) (n : String) : Option VersionMember :=
  body.reverse.lookup n

/-- The wrapper installed by the second `version.decorate` (decorators/
call.py lines 202-212): `decorated` raises `VersionError` when the
request's version is not among the declared versions, and otherwise
calls the wrapped function.  `req_version` stands for the value of
`self.request.version(self.content_type)`. -/
def version_decorated {β : Type} (versions : List String) (req_version : String)
    (func : Unit → Except PyExc β) : Except PyExc β :=
  if req_version ∈ versions then func ()
  else .error (.versionError req_version)

lemma response_for_exc_callError (resp : Response) (c : Nat) (m : String) :
    response_for_exc resp (.callError c m) =
      { resp with code := c, body := .errorBody (.callError c m) } := rfl

lemma response_for_exc_not_callError (resp : Response) (e : PyExc)
    (h : ∀ c m, e ≠ .callError c m) :
    response_for_exc resp e = { resp with code := 500, body := .errorBody e } := by
  cases e <;> first | rfl | exact absurd rfl (h _ _)

/-- C2: `Call.handle` never raises: it is a total function producing one
`Response`; an exception carrying an explicit HTTP status (`CallError c`)
sets the response code to exactly `c` with the error as body, and any
other exception sets code 500 — the strict two-tier model. -/
theorem handle_two_tier (content_type : String)
    (cbinfo : Except PyExc (String × List String × List (String × String)))
    (callback : List String → List (String × String) → Except PyExc String)
    (resp0 : Response) :
    (∀ c m, raisedExc cbinfo callback = some (.callError c m) →
      (handle content_type cbinfo callback resp0).code = c ∧
      (handle content_type cbinfo callback resp0).body = .errorBody (.callError c m)) ∧
    (∀ e, raisedExc cbinfo callback = some e → (∀ c m, e ≠ .callError c m) →
      (handle content_type cbinfo callback resp0).code = 500 ∧
      (handle content_type cbinfo callback resp0).body = .errorBody e) ∧
    (raisedExc cbinfo callback = none →
      ∃ b, (handle content_type cbinfo callback resp0).body = .value b) := by
  cases cbinfo with
  | error e =>
      refine ⟨?_, ?_, ?_⟩
      · intro c m hr
        simp [raisedExc] at hr
        subst hr
        simp [handle, response_for_exc]
      · intro e' hr hne
        simp [raisedExc] at hr
        subst hr
        simp [handle, response_for_exc_not_callError resp0 e hne]
      · intro hr; simp [raisedExc] at hr
  | ok v =>
      obtain ⟨n, args, kwargs⟩ := v
      cases hcb : callback args kwargs with
      | ok b =>
          refine ⟨?_, ?_, ?_⟩
          · intro c m hr; simp [raisedExc, hcb] at hr
          · intro e' hr hne; simp [raisedExc, hcb] at hr
          · intro _; exact ⟨b, by simp [handle, hcb]⟩
      | error e =>
          refine ⟨?_, ?_, ?_⟩
          · intro c m hr
            simp [raisedExc, hcb] at hr
            subst hr
            simp [handle, hcb, response_for_exc]
          · intro e' hr hne
            simp [raisedExc, hcb] at hr
            subst hr
            simp [handle, hcb,
              response_for_exc_not_callError _ e hne]
          · intro hr; simp [raisedExc, hcb] at hr

/-- C2 witness: a callback raising `CallError 401` yields code 401. -/
theorem handle_two_tier_witness :
    (handle "application/json" (.error (.callError 401 "denied"))
        (fun _ _ => .ok "") {}).code = 401 ∧
    (handle "application/json" (.error (.callError 401 "denied"))
        (fun _ _ => .ok "") {}).body = .errorBody (.callError 401 "denied") :=
  (handle_two_tier "application/json" (.error (.callError 401 "denied"))
    (fun _ _ => .ok "") {}).1 401 "denied" rfl

/-- C6 (code bug): the directory filter on call.py line 27,
`d[0] != '.' or d[0] != '_'`, is a tautology — a character cannot differ
from neither `'.'` nor `'_'` — so the walk prunes nothing: every
directory passes `keepDir` while the intended filter rejects
`"_private"`, and on a package holding a private subdirectory
`_private/foo.py` the computed module set contains the identifier
`ctrl._private.foo` derived from it, which the claim says is excluded. -/
theorem dir_filter_tautology_bug :
    (∀ d, keepDir d = true) ∧
    keepDirSpec "_private" = false ∧
    "ctrl._private.foo" ∈ dirModules ["ctrl"]
      (.node "ctrl" ["__init__.py"] [.node "_private" ["foo.py"] []]) := by
  refine ⟨?_, by decide, ?_⟩
  · intro d
    by_cases h : pyFront d = '.'
    · simp [keepDir, h]
    · simp [keepDir, h]
  · simp [dirModules, dirsModules, moduleOfFile, keepDir, pyEndsWith,
      pyStartsWith, listStarts, dotJoin, fileStem, pyFront, Dir.dname]

/-- C9: for a non-empty controller root not yet cached, `get_controllers`
walks the tree once, stores the result keyed by the root, and afterwards
any call whose cache still maps the root to that set returns the very
same set without re-walking (`false` flag); moreover a single
intervening call for any other root preserves the stored entry. -/
theorem get_controllers_cache (fs : Dir) (croot : String) (cache : ModuleCache)
    (hp : croot ≠ "") (hfirst : cache.lookup croot = none) :
    ∃ m, get_controllers fs croot cache = .ok (m, (croot, m) :: cache, true) ∧
      (∀ c : ModuleCache, c.lookup croot = some m →
        get_controllers fs croot c = .ok (m, c, false)) ∧
      (∀ q m2 c2 w2, get_controllers fs q ((croot, m) :: cache) = .ok (m2, c2, w2) →
        c2.lookup croot = some m) := by
  refine ⟨dirModules [croot] fs, ?_, ?_, ?_⟩
  · simp [get_controllers, hp, hfirst]
  · intro c hc
    simp [get_controllers, hp, hc]
  · intro q m2 c2 w2 h
    by_cases hq : q = ""
    · simp [get_controllers, hq] at h
    · cases hl : List.lookup q ((croot, dirModules [croot] fs) :: cache) with
      | some mm =>
          simp [get_controllers, hq, hl] at h
          obtain ⟨-, hc2, -⟩ := h
          subst hc2
          simp [List.lookup]
      | none =>
          simp [get_controllers, hq, hl] at h
          obtain ⟨-, hc2, -⟩ := h
          subst hc2
          have hqc : (q == croot) = false := by
            by_contra hx
            simp at hx
            subst hx
            simp [List.lookup] at hl
          have hcq : (croot == q) = false := by
            simp at hqc ⊢
            exact fun hx => hqc hx.symm
          simp [List.lookup, hcq]

/-- C9 witness: first call on root `ctrl` with an empty cache walks and
caches; the follow-up call returns the identical set without walking. -/
theorem get_controllers_cache_witness :
    ∃ m, get_controllers (.node "ctrl" ["__init__.py"] []) "ctrl" [] =
        .ok (m, ("ctrl", m) :: [], true) ∧
      (∀ c : ModuleCache, c.lookup "ctrl" = some m →
        get_controllers (.node "ctrl" ["__init__.py"] []) "ctrl" c = .ok (m, c, false)) ∧
      (∀ q m2 c2 w2,
        get_controllers (.node "ctrl" ["__init__.py"] []) q (("ctrl", m) :: []) =
          .ok (m2, c2, w2) → c2.lookup "ctrl" = some m) :=
  get_controllers_cache (.node "ctrl" ["__init__.py"] []) "ctrl" []
    (by decide) rfl

/-- C3: `get_callback_info` fails with a 404 `CallError` exactly when the
controller-info gathering step raised an `ImportError` or
`AttributeError` (missing module or missing class), and fails with a 405
`CallError` exactly when the module and class resolved but the
instantiated controller exposes no attribute named after the (uppercase)
HTTP method — so a resolved class lacking the entry point yields 405,
never 404.  The two side conditions record that resolution itself never
raises a `CallError` with code 404 or 405 (its failure modes are
`ImportError`, `AttributeError`, `ValueError`, and `CallError 406` from
version negotiation). -/
theorem callback_info_404_405 (ci : Except PyExc ControllerInfo)
    (instAttrs : String → String → List String) (req_path req_method : String)
    (h404 : ∀ m, ci ≠ .error (.callError 404 m))
    (h405 : ∀ m, ci ≠ .error (.callError 405 m)) :
    ((∃ m, get_callback_info ci instAttrs req_path req_method =
        .error (.callError 404 m)) ↔
      (∃ e, ci = .error e ∧ isResolveFailure e = true)) ∧
    ((∃ m, get_callback_info ci instAttrs req_path req_method =
        .error (.callError 405 m)) ↔
      (∃ d, ci = .ok d ∧ d.method ∉ instAttrs d.module_name d.class_name)) := by
  cases ci with
  | error e =>
      by_cases hre : isResolveFailure e = true
      · constructor
        · constructor
          · intro _; exact ⟨e, rfl, hre⟩
          · intro _
            exact ⟨req_path ++ " not found because of error: " ++ excMessage e,
              by simp [get_callback_info, hre]⟩
        · constructor
          · rintro ⟨m, hm⟩
            simp [get_callback_info, hre] at hm
          · rintro ⟨d, hd, -⟩
            cases hd
      · constructor
        · constructor
          · rintro ⟨m, hm⟩
            simp [get_callback_info, hre] at hm
            exact absurd (by rw [hm]) (h404 m)
          · rintro ⟨e2, he2, hre2⟩
            rw [Except.error.injEq] at he2
            subst he2
            exact absurd hre2 hre
        · constructor
          · rintro ⟨m, hm⟩
            simp [get_callback_info, hre] at hm
            exact absurd (by rw [hm]) (h405 m)
          · rintro ⟨d, hd, -⟩
            cases hd
  | ok d =>
      by_cases hmem : d.method ∈ instAttrs d.module_name d.class_name
      · constructor
        · constructor
          · rintro ⟨m, hm⟩
            simp [get_callback_info, hmem] at hm
          · rintro ⟨e, he, -⟩
            cases he
        · constructor
          · rintro ⟨m, hm⟩
            simp [get_callback_info, hmem] at hm
          · rintro ⟨d2, hd2, hmem2⟩
            rw [Except.ok.injEq] at hd2
            subst hd2
            exact absurd hmem hmem2
      · constructor
        · constructor
          · rintro ⟨m, hm⟩
            simp [get_callback_info, hmem] at hm
          · rintro ⟨e, he, -⟩
            cases he
        · constructor
          · intro _
            exact ⟨d, rfl, hmem⟩
          · intro _
            exact ⟨req_method ++ " " ++ req_path ++ " not supported",
              by simp [get_callback_info, hmem]⟩

/-- C3 witness: an `ImportError` during gathering maps to 404, and a
resolved class without a `GET` attribute maps to 405. -/
theorem callback_info_404_405_witness :
    (((∃ m, get_callback_info (.error (.importError "ctrl.foo"))
        (fun _ _ => ["POST"]) "/foo" "GET" = .error (.callError 404 m)) ↔
      (∃ e, (.error (.importError "ctrl.foo") : Except PyExc ControllerInfo) =
          .error e ∧ isResolveFailure e = true)) ∧
    ((∃ m, get_callback_info (.error (.importError "ctrl.foo"))
        (fun _ _ => ["POST"]) "/foo" "GET" = .error (.callError 405 m)) ↔
      (∃ d, (.error (.importError "ctrl.foo") : Except PyExc ControllerInfo) =
          .ok d ∧ d.method ∉ ["POST"]))) ∧
    ((∃ m, get_callback_info
        (.ok { module_name := "ctrl", class_name := "Default", method := "GET",
               args := [], kwargs := [] })
        (fun _ _ => ["POST"]) "/foo" "GET" = .error (.callError 405 m)) ↔
      (∃ d, (.ok { module_name := "ctrl", class_name := "Default",
                   method := "GET", args := [], kwargs := [] } :
              Except PyExc ControllerInfo) = .ok d ∧
        d.method ∉ ["POST"])) := by
  constructor
  · have h := callback_info_404_405 (.error (.importError "ctrl.foo"))
      (fun _ _ => ["POST"]) "/foo" "GET" (by intro m h; cases h) (by intro m h; cases h)
    exact ⟨h.1, by simpa using h.2⟩
  · have h := callback_info_404_405
      (.ok { module_name := "ctrl", class_name := "Default", method := "GET",
             args := [], kwargs := [] })
      (fun _ _ => ["POST"]) "/foo" "GET" (by intro m h; cases h) (by intro m h; cases h)
    simpa using h.2

/-- C8: when every route-override predicate fails on the request, the
selection mechanism invokes the decorator's `handle_failure`: the
generic `route` decorator raises `CallError 405` and the `param_route`
decorator raises `CallError 400`. -/
theorem route_failure_status_codes {r a : Type} (alts : List ((r → Bool) × a))
    (req : r) (req_path : String)
    (h : ∀ pa ∈ alts, pa.1 req = false) :
    selectRoute alts route_handle_failure req req_path =
      .error (.callError 405 ("Could not find a method to satisfy " ++ req_path)) ∧
    selectRoute alts param_route_handle_failure req req_path =
      .error (.callError 400 ("Could not find a method to satisfy " ++ req_path)) := by
  have hf : alts.find? (fun pa => pa.1 req) = none := by
    apply List.find?_eq_none.mpr
    intro pa hpa
    simp [h pa hpa]
  constructor <;>
    simp [selectRoute, hf, route_handle_failure, param_route_handle_failure]

/-- C8 witness: two mutually-failing `GET` alternatives yield 405 under
`route` and 400 under `param_route`. -/
theorem route_failure_status_codes_witness :
    selectRoute [((fun _ => false : Nat → Bool), 1), ((fun n => n = 7), 2)]
        route_handle_failure 3 "/foo" =
      .error (.callError 405 ("Could not find a method to satisfy " ++ "/foo")) ∧
    selectRoute [((fun _ => false : Nat → Bool), 1), ((fun n => n = 7), 2)]
        param_route_handle_failure 3 "/foo" =
      .error (.callError 400 ("Could not find a method to satisfy " ++ "/foo")) :=
  route_failure_status_codes [((fun _ => false), 1), ((fun n => n = 7), 2)] 3 "/foo"
    (by intro pa hpa; simp at hpa; rcases hpa with h | h <;> subst h <;> rfl)

/-- Dotted module name obtained by extending `cur` with each segment in
turn, as the `mod_name += "." + path_args[0]` loop does. -/
def dottedName (cur : String) (segs : List String) : String :=
  segs.foldl (fun acc s => acc ++ "." ++ s) cur

/-- Every step of extending `cur` by the segments stays inside `cset`:
the chain condition under which a namespace walk can consume them all. -/
def chainInSet (cset : List String) : String → List String → Bool
  | _, [] => true
  | cur, a :: rest =>
      decide ((cur ++ "." ++ a) ∈ cset) && chainInSet cset (cur ++ "." ++ a) rest

lemma dottedName_cons (cur a : String) (segs : List String) :
    dottedName cur (a :: segs) = dottedName (cur ++ "." ++ a) segs := rfl

/-- The greedy `while` loop of `get_controller_info_advanced` splits the
path at the longest chain of segments whose dotted extensions all lie in
the controller set: the consumed segments satisfy the chain condition,
the result is their dotted name with the rest unconsumed, and no longer
chain-satisfying split of the path exists. -/
lemma moduleWalk_spec (cset : List String) :
    ∀ (path : List String) (cur : String),
      ∃ consumed,
        path = consumed ++ (moduleWalk cset cur path).2 ∧
        (moduleWalk cset cur path).1 = dottedName cur consumed ∧
        chainInSet cset cur consumed = true ∧
        ∀ c r, path = c ++ r → chainInSet cset cur c = true →
          c.length ≤ consumed.length := by
  intro path
  induction path with
  | nil =>
      intro cur
      refine ⟨[], by simp [moduleWalk], by simp [moduleWalk, dottedName], rfl, ?_⟩
      intro c r hcr _
      have : c = [] := by
        cases c with
        | nil => rfl
        | cons x xs => simp at hcr
      simp [this]
  | cons a rest ih =>
      intro cur
      by_cases hmem : (cur ++ "." ++ a) ∈ cset
      · obtain ⟨consumed2, h1, h2, h3, h4⟩ := ih (cur ++ "." ++ a)
        refine ⟨a :: consumed2, ?_, ?_, ?_, ?_⟩
        · simpa [moduleWalk, hmem] using h1
        · simpa [moduleWalk, hmem, dottedName_cons] using h2
        · simp [chainInSet, hmem, h3]
        · intro c r hcr hchain
          cases c with
          | nil => simp
          | cons x xs =>
              rw [List.cons_append, List.cons.injEq] at hcr
              obtain ⟨hx, hrest⟩ := hcr
              subst hx
              simp only [chainInSet, Bool.and_eq_true, decide_eq_true_eq] at hchain
              have := h4 xs r hrest hchain.2
              simpa using Nat.succ_le_succ this
      · refine ⟨[], by simp [moduleWalk, hmem], by simp [moduleWalk, hmem, dottedName], rfl, ?_⟩
        intro c r hcr hchain
        cases c with
        | nil => simp
        | cons x xs =>
            rw [List.cons_append, List.cons.injEq] at hcr
            obtain ⟨hx, -⟩ := hcr
            subst hx
            simp only [chainInSet, Bool.and_eq_true, decide_eq_true_eq] at hchain
            exact absurd hchain.1 hmem

/-- C1: advanced controller resolution walks the path greedily, one
segment at a time, while the extended dotted name lies in the controller
set; the consumed segments form the longest chain-matching namespace
split of the path (so for `/a/b/c` with `R.a`, `R.a.b` known and
`R.a.b.c` unknown it selects `R.a.b`, never `R.a`); and whenever
resolution succeeds, the module name is the walk's result, the keyword
arguments are exactly the query parameters, and the positional arguments
are exactly the path segments consumed neither as module segments nor as
the class-name segment, in order. -/
theorem advanced_resolution_greedy_longest (modules : String → Option PyModule)
    (cset : List String) (croot method : String) (path_args : List String)
    (query_kwargs : List (String × String)) :
    (∃ consumed,
      path_args = consumed ++ (moduleWalk cset croot path_args).2 ∧
      (moduleWalk cset croot path_args).1 = dottedName croot consumed ∧
      chainInSet cset croot consumed = true ∧
      ∀ c r, path_args = c ++ r → chainInSet cset croot c = true →
        c.length ≤ consumed.length) ∧
    (∀ info,
      get_controller_info_advanced modules cset croot method path_args query_kwargs
        = .ok info →
      info.module_name = (moduleWalk cset croot path_args).1 ∧
      info.kwargs = query_kwargs ∧
      (info.args = (moduleWalk cset croot path_args).2 ∨
        ∃ a, (moduleWalk cset croot path_args).2 = a :: info.args ∧
          info.class_name = pyCapitalize a)) := by
  refine ⟨moduleWalk_spec cset path_args croot, ?_⟩
  intro info h
  unfold get_controller_info_advanced at h
  simp only [] at h
  cases hm : modules (moduleWalk cset croot path_args).1 with
  | none => rw [hm] at h; cases h
  | some m =>
      rw [hm] at h
      cases hw : (moduleWalk cset croot path_args).2 with
      | nil =>
          rw [hw] at h
          simp only [classPick] at h
          split at h
          · rw [Except.ok.injEq] at h
            subst h
            exact ⟨rfl, rfl, Or.inl rfl⟩
          · cases h
      | cons a rest =>
          rw [hw] at h
          simp only [classPick] at h
          by_cases hcap : m.hasattr (pyCapitalize a) = true
          · rw [if_pos hcap] at h
            simp only at h
            rw [if_pos hcap] at h
            rw [Except.ok.injEq] at h
            subst h
            exact ⟨rfl, rfl, Or.inr ⟨a, rfl, rfl⟩⟩
          · rw [if_neg hcap] at h
            simp only at h
            split at h
            · rw [Except.ok.injEq] at h
              subst h
              exact ⟨rfl, rfl, Or.inl rfl⟩
            · cases h

/-- Modules for the longest-match example: only `R.a.b` is importable,
holding a single handler class `Default`. -/
def exampleModules : String → Option PyModule := fun n =>
  if n = "R.a.b" then some ⟨[("Default", true)]⟩ else none

/-- C1 witness: for path `/a/b/c` with `R.a` and `R.a.b` known and
`R.a.b.c` unknown, resolution picks module `R.a.b`, passes `c` as the
positional argument and the query parameters as keyword arguments. -/
theorem advanced_resolution_greedy_longest_witness :
    ({ module_name := "R.a.b", class_name := "Default", method := "GET",
       args := ["c"], kwargs := [("k", "v")] } : ControllerInfo).module_name
        = (moduleWalk ["R.a", "R.a.b"] "R" ["a", "b", "c"]).1 ∧
    ({ module_name := "R.a.b", class_name := "Default", method := "GET",
       args := ["c"], kwargs := [("k", "v")] } : ControllerInfo).kwargs
        = [("k", "v")] ∧
    (({ module_name := "R.a.b", class_name := "Default", method := "GET",
        args := ["c"], kwargs := [("k", "v")] } : ControllerInfo).args
          = (moduleWalk ["R.a", "R.a.b"] "R" ["a", "b", "c"]).2 ∨
      ∃ a, (moduleWalk ["R.a", "R.a.b"] "R" ["a", "b", "c"]).2
          = a :: ({ module_name := "R.a.b", class_name := "Default",
                    method := "GET", args := ["c"],
                    kwargs := [("k", "v")] } : ControllerInfo).args ∧
        ({ module_name := "R.a.b", class_name := "Default", method := "GET",
           args := ["c"], kwargs := [("k", "v")] } : ControllerInfo).class_name
          = pyCapitalize a) :=
  (advanced_resolution_greedy_longest exampleModules ["R.a", "R.a.b"] "R" "get"
    ["a", "b", "c"] [("k", "v")]).2
    { module_name := "R.a.b", class_name := "Default", method := "GET",
      args := ["c"], kwargs := [("k", "v")] } rfl

/-- Modules for the decoy scenario of the repository's own
`test_no_match` test: `nomodcontroller` imports the non-handler class
`Nomodbar` from its sibling module and declares the handler `Default`. -/
def decoyModules : String → Option PyModule := fun n =>
  if n = "nomodcontroller" then
    some ⟨[("Controller", false), ("Nomodbar", false), ("Default", true)]⟩
  else none

/-- C4 (code bug): the class-segment step checks only `hasattr`
(call.py line 209), never whether the attribute is a declared handler
class, so for path `/nomodbar` the imported decoy `Nomodbar` IS selected
as `class_name` and the segment is consumed — while the module marks
`Nomodbar` as not a handler class.  The repository's own test
(`test_no_match` in tests/call_test.py) expects `class_name = "Default"`
with `"nomodbar"` kept as the first positional argument. -/
theorem advanced_class_pick_decoy_bug :
    get_controller_info_advanced decoyModules
        ["nomodcontroller", "nomodcontroller.nomod"]
        "nomodcontroller" "GET" ["nomodbar"] []
      = .ok { module_name := "nomodcontroller", class_name := "Nomodbar",
              method := "GET", args := [], kwargs := [] } ∧
    ∃ m, decoyModules "nomodcontroller" = some m ∧
      m.hasHandlerClass "Nomodbar" = false ∧
      m.hasattr "Nomodbar" = true := by
  refine ⟨rfl, ⟨_, rfl, by decide, by decide⟩⟩

/-- Modules for the underscore-path scenario: the root package imports
fine and holds only the handler class `Default`. -/
def underscoreModules : String → Option PyModule := fun n =>
  if n = "ctrl" then some ⟨[("Default", true)]⟩ else none

/-- C5 counterexample: a request whose first path segment is the
underscore-prefixed `_foo` does NOT fail in the advanced resolution that
`get_controller_info` uses — it resolves successfully, keeping `_foo` as
a positional argument, so no NotFound-class failure occurs at all. -/
theorem advanced_no_underscore_check_counterexample :
    pyStartsWith "_foo" "_" = true ∧
    get_controller_info_advanced underscoreModules ["ctrl"] "ctrl" "GET"
        ["_foo"] []
      = .ok { module_name := "ctrl", class_name := "Default", method := "GET",
              args := ["_foo"], kwargs := [] } := by
  refine ⟨by decide, rfl⟩

/-- C5 (amended): only the unused simple resolution rejects an
underscore-prefixed first segment, and it raises `ValueError` (which
`handle` maps to 500, not 404); the advanced resolution that
`get_controller_info` delegates to performs no underscore check — when
the segment extends no known namespace and matches no module attribute
it is simply kept as a positional argument and resolution succeeds. -/
theorem underscore_rejection_simple_only (modules : String → Option PyModule)
    (croot method seg : String) (rest : List String)
    (query : List (String × String))
    (h : pyStartsWith seg "_" = true) :
    get_controller_info_simple modules croot method (seg :: rest) query
      = .error (.valueError (seg ++ " is an invalid")) ∧
    ∀ cset m, (croot ++ "." ++ seg) ∉ cset → modules croot = some m →
      m.hasattr (pyCapitalize seg) = false → m.hasattr "Default" = true →
      get_controller_info_advanced modules cset croot method (seg :: rest) query
        = .ok { module_name := croot, class_name := "Default",
                method := pyUpper method, args := seg :: rest, kwargs := query } := by
  constructor
  · simp [get_controller_info_simple, h]
  · intro cset m hmem hmod hcap hdef
    unfold get_controller_info_advanced
    simp only []
    rw [show moduleWalk cset croot (seg :: rest) = (croot, seg :: rest) by
      simp [moduleWalk, hmem]]
    rw [hmod]
    simp only [classPick, hcap, if_neg, Bool.false_eq_true, if_false]
    simp [hdef]

/-- C5 amended witness at root `ctrl`, path `/_foo`. -/
theorem underscore_rejection_simple_only_witness :
    get_controller_info_simple underscoreModules "ctrl" "GET" ["_foo"] []
      = .error (.valueError ("_foo" ++ " is an invalid")) ∧
    ∀ cset m, ("ctrl" ++ "." ++ "_foo") ∉ cset →
      underscoreModules "ctrl" = some m →
      m.hasattr (pyCapitalize "_foo") = false → m.hasattr "Default" = true →
      get_controller_info_advanced underscoreModules cset "ctrl" "GET"
          ["_foo"] []
        = .ok { module_name := "ctrl", class_name := "Default",
                method := pyUpper "GET", args := ["_foo"], kwargs := [] } :=
  underscore_rejection_simple_only underscoreModules "ctrl" "GET" "_foo" [] []
    (by decide)

/-- The truthy `version` parameter of a media-type entry, if any:
`mt[2].get("version", None)` followed by Python truthiness. -/
def truthyVersion (mt : MediaTypeEntry) : Option String :=
  match mt.params.lookup "version" with
  | some s => if s = "" then none else some s
  | none => none

lemma firstVersion_cons (mt : MediaTypeEntry) (rest : List MediaTypeEntry) :
    firstVersion (mt :: rest) =
      match truthyVersion mt with
      | some v => some v
      | none => firstVersion rest := by
  simp only [firstVersion, truthyVersion]
  cases mt.params.lookup "version" with
  | none => rfl
  | some s =>
      by_cases hs : s = ""
      · simp [hs]
      · simp [hs]

lemma firstVersion_first_truthy (pre : List MediaTypeEntry)
    (mt : MediaTypeEntry) (post : List MediaTypeEntry) (v : String)
    (hpre : ∀ e ∈ pre, truthyVersion e = none) (hmt : truthyVersion mt = some v) :
    firstVersion (pre ++ mt :: post) = some v := by
  induction pre with
  | nil => simp [firstVersion_cons, hmt]
  | cons e es ih =>
      rw [List.cons_append, firstVersion_cons, hpre e (by simp)]
      exact ih (fun e2 h2 => hpre e2 (by simp [h2]))

/-- C7: `VersionCall.get_version` (with a non-empty declared content
type) returns the version carried by the first filtered Accept-header
entry that has a truthy `version` parameter; when the Accept header is
absent or no entry carries a version, it silently returns the configured
default version; and when additionally no (truthy) default is
configured, it raises `CallError 406`. -/
theorem get_version_spec (content_type accept_header : String)
    (filtered : List MediaTypeEntry) (default_version : Option String)
    (hct : content_type ≠ "") :
    (∀ pre mt post v, filtered = pre ++ mt :: post →
      (∀ e ∈ pre, truthyVersion e = none) → truthyVersion mt = some v →
      accept_header ≠ "" →
      get_version content_type accept_header filtered default_version = .ok v) ∧
    (∀ dv, (accept_header = "" ∨ firstVersion filtered = none) →
      default_version = some dv → dv ≠ "" →
      get_version content_type accept_header filtered default_version = .ok dv) ∧
    ((accept_header = "" ∨ firstVersion filtered = none) →
      truthyOpt default_version = false →
      get_version content_type accept_header filtered default_version =
        .error (.callError 406
          ("Expected accept header with " ++ content_type ++ ";version=N media type"))) := by
  refine ⟨?_, ?_, ?_⟩
  · intro pre mt post v hsplit hpre hmt hah
    subst hsplit
    rw [get_version.eq_def, if_neg hct, if_neg hah,
      firstVersion_first_truthy pre mt post v hpre hmt]
  · intro dv hnov hdv hne
    subst hdv
    rw [get_version.eq_def, if_neg hct]
    rcases hnov with hah | hfv
    · rw [if_pos hah]
      simp [hne]
    · by_cases hah : accept_header = ""
      · rw [if_pos hah]; simp [hne]
      · rw [if_neg hah, hfv]; simp [hne]
  · intro hnov hdv
    rw [get_version.eq_def, if_neg hct]
    have hv : (if accept_header = "" then none else firstVersion filtered) = none := by
      rcases hnov with hah | hfv
      · rw [if_pos hah]
      · by_cases hah : accept_header = ""
        · rw [if_pos hah]
        · rw [if_neg hah, hfv]
    rw [hv]
    cases default_version with
    | none => rfl
    | some dv =>
        have hdv2 : dv = "" := by simpa [truthyOpt] using hdv
        simp [hdv2]

/-- C7 witness: Accept header `application/json;version=v1` against
content type `application/json` yields `v1`; with no version anywhere
and no default the call fails with 406. -/
theorem get_version_spec_witness :
    get_version "application/json" "application/json;version=v1"
        [{ mtype := "application", msubtype := "json",
           params := [("version", "v1")] }] none = .ok "v1" ∧
    get_version "application/json" "" [] none =
      .error (.callError 406
        ("Expected accept header with " ++ "application/json" ++ ";version=N media type")) :=
  ⟨(get_version_spec "application/json" "application/json;version=v1"
      [{ mtype := "application", msubtype := "json",
         params := [("version", "v1")] }] none (by decide)).1
      [] _ [] "v1" rfl (by intro e h; cases h) rfl (by decide),
   (get_version_spec "application/json" "" [] none (by decide)).2.2
      (Or.inl rfl) rfl⟩

/-- Concrete instantiation of the abstract runtime used by the C10
witness: every name of `version_target_scope` is bound, every operation
succeeds trivially. -/
def plainOps : PyOps Unit :=
  { lookup := fun n => if n ∈ version_target_scope then some () else none,
    getattr := fun _ _ => .ok (),
    call := fun _ _ => .ok (),
    containsTest := fun _ _ => .ok true,
    eqTest := fun _ _ => .ok true,
    subscript := fun _ _ => .ok (),
    getitem := fun _ _ => .ok (),
    iter := fun _ => .ok [] }

/-- C10: the `version` route-override decorator is broken in exactly the
claimed way.  (1) `version.target` can never return: its first statement
reads the bare name `req` (the parameter is `request`), which is bound
in no invocation scope, so every invocation raises `NameError` — for any
runtime behaviour of the remaining operations.  (2) The class body binds
`decorate` twice and class creation keeps the last binding, so
`@version(...)` installs the second, function-wrapping `decorate` and
the predicate-based path is unreachable.  (3) The installed wrapper
raises `VersionError` exactly when the request's version is not among
the declared versions, and otherwise calls the wrapped function. -/
theorem version_decorator_broken :
    (∀ (α : Type) (ops : PyOps α),
      (∀ n, (ops.lookup n).isSome = true ↔ n ∈ version_target_scope) →
      version_target ops = .error (.nameError "req")) ∧
    classAttr version_class_body "decorate" = some .decorateSecond ∧
    (∀ (β : Type) (versions : List String) (req_version : String)
        (func : Unit → Except PyExc β),
      req_version ∉ versions →
        version_decorated versions req_version func =
          .error (.versionError req_version)) ∧
    (∀ (β : Type) (versions : List String) (req_version : String)
        (func : Unit → Except PyExc β),
      req_version ∈ versions →
        version_decorated versions req_version func = func ()) := by
  refine ⟨?_, rfl, ?_, ?_⟩
  · intro α ops h
    have hreq : ops.lookup "req" = none := by
      have h2 := h "req"
      have h3 : "req" ∉ version_target_scope := by decide
      cases hl : ops.lookup "req" with
      | none => rfl
      | some v => exact absurd (h2.mp (by rw [hl]; rfl)) h3
    simp [version_target, loadName, hreq, Bind.bind, Except.bind]
  · intro β versions req_version func hmem
    simp [version_decorated, hmem]
  · intro β versions req_version func hmem
    simp [version_decorated, hmem]

/-- C10 witness: with every actually-bound name available and all other
runtime operations succeeding, `version.target` still raises
`NameError` on `req`; the class attribute `decorate` is the second
definition; and the installed wrapper rejects `v2` against declared
`{v1}` while accepting `v1`. -/
theorem version_decorator_broken_witness :
    version_target plainOps = .error (.nameError "req") ∧
    classAttr version_class_body "decorate" = some .decorateSecond ∧
    version_decorated ["v1"] "v2" (fun _ => (.ok 0 : Except PyExc Nat)) =
      .error (.versionError "v2") ∧
    version_decorated ["v1"] "v1" (fun _ => (.ok 0 : Except PyExc Nat)) = .ok 0 := by
  obtain ⟨h1, h2, h3, h4⟩ := version_decorator_broken
  refine ⟨?_, h2, h3 Nat ["v1"] "v2" _ (by decide), ?_⟩
  · apply h1 Unit plainOps
    intro n
    by_cases hn : n ∈ version_target_scope
    · simp [plainOps, hn]
    · simp [plainOps, hn]
  · rw [h4 Nat ["v1"] "v1" _ (by decide)]

end Endpoints
